import Mathlib

/-!
Shallow embedding of the vector-retrieval core of the repository
(src/config.py, src/database_operations.py, src/main.py).

Modelling conventions:
* Embedding vectors are lists of rationals (`List ℚ`); the ranking and length
  properties verified here do not depend on the floating-point representation.
* The external OpenAI embeddings HTTP endpoint is an oracle
  `api : String → String → ApiResult` giving, per (text, model) pair, the
  outcome of the POST in `generate_embeddings_openai`.
* The pythainlp preprocessing (`preprocess_text`, an external collaborator the
  spec treats as an opaque pure function text → text) is a parameter
  `pre : String → String`.
* The Milvus server and client are external collaborators; their collection
  state is made explicit (`Collection`, `StoreState`) and their validation and
  search behaviour is modelled from the spec's store contract (§4.2, §6),
  marked `Modelled from the spec:` below.
-/

set_option maxRecDepth 10000

namespace RagDemo

/-- Embedding vectors, as produced by the embedding endpoint and stored in the
collection's FLOAT_VECTOR field. -/
abbrev Embedding := List ℚ

/-- Outcome of the HTTP POST to the OpenAI embeddings endpoint inside
`generate_embeddings_openai` (src/database_operations.py lines 65-72):
`httpError` covers a network failure or a non-2xx status (the
`raise_for_status` path); `malformed` covers an unparseable body or a body
missing the `data[0].embedding` field; `ok v` is a parsed response whose
embedding field is `v` (the code performs no further validation of `v`). -/
inductive ApiResult where
  | httpError
  | malformed
  | ok (v : Embedding)
deriving DecidableEq

/-- Transcription of `generate_embeddings_openai` (src/database_operations.py
lines 51-77): on success the `data[0].embedding` field of the response is
returned verbatim; both `except` branches print the error and the function
returns `None` (the HTTPError branch falls through to the implicit `None`). -/
def generate_embeddings_openai (api : String → String → ApiResult)
    (text model_name : String) : Option Embedding :=
  match api text model_name with
  | ApiResult.httpError => none
  | ApiResult.malformed => none
  | ApiResult.ok v => some v

/-- Dimension selection in `create_collection` (src/database_operations.py
lines 84-88): `"text-embedding-3-large"` maps to 3072, any other model name
falls into the `else` branch and gets 1536. -/
def embeddingDim (model_name : String) : Nat :=
  if model_name = "text-embedding-3-large" then 3072 else 1536

/-- One stored row of the Milvus collection: auto-assigned INT64 primary key,
VARCHAR text, FLOAT_VECTOR embedding (schema of `create_collection`,
src/database_operations.py lines 91-95). -/
structure Doc where
  id : Nat
  text : String
  embedding : Embedding
deriving DecidableEq

/-- State of the single Milvus collection `thai_text_embeddings`: its schema
dimension, the next auto id, the stored rows in insertion order, whether the
IVF_FLAT index exists and whether the collection is loaded for search. -/
structure Collection where
  dim : Nat
  nextId : Nat
  docs : List Doc
  hasIndex : Bool
  loaded : Bool
deriving DecidableEq

/-- State of the Milvus server relevant to this program: whether the database
`my_database` exists, and the collection `thai_text_embeddings` if present. -/
structure StoreState where
  dbExists : Bool
  coll : Option Collection
deriving DecidableEq

/-- Errors raised by the Milvus client/server into the Python code (which
installs no exception handler around any store call): `schemaMismatch` for a
vector whose length differs from the schema dimension, `invalidData` for data
that is not a vector at all (e.g. Python `None`), `storeUnavailable` for a
connection/RPC failure. -/
inductive StoreErr where
  | schemaMismatch
  | invalidData
  | storeUnavailable
deriving DecidableEq

/-- Transcription of `create_collection` (src/database_operations.py lines
79-108): pick the dimension from the model name, then, if the collection
already exists, print and return a handle to the existing collection
unchanged (no schema validation); otherwise create it with the fresh schema. -/
def create_collection (s : StoreState) (model_name : String) :
    StoreState × Collection :=
  match s.coll with
  | some c => (s, c)
  | none =>
      let c : Collection :=
        { dim := embeddingDim model_name, nextId := 0, docs := [],
          hasIndex := false, loaded := false }
      ({ s with coll := some c }, c)

/-- Transcription of `insert_texts` (src/database_operations.py lines
127-142), which calls `collection.insert([[text], [embedding]])` and then
`collection.flush()`. The validation performed by the Milvus client/server on
the row is Modelled from the spec: (§4.2 `insert`) a `None` embedding is
rejected as invalid data, a vector whose length differs from the collection's
configured dimension fails with `SchemaMismatchError` and the document is not
added; on success the row is appended with the auto-assigned id and the write
is flushed before returning. An error result models the raised exception:
the collection keeps its previous contents. -/
def insert_texts (c : Collection) (text : String) (embedding : Option Embedding) :
    Except StoreErr Collection :=
  match embedding with
  | none => Except.error StoreErr.invalidData
  | some v =>
      if v.length = c.dim then
        Except.ok { c with
          docs := c.docs ++ [{ id := c.nextId, text := text, embedding := v }],
          nextId := c.nextId + 1 }
      else
        Except.error StoreErr.schemaMismatch

/-- Transcription of `create_index` (src/database_operations.py lines
145-157): a no-op (just a print) if an index already exists, otherwise build
the IVF_FLAT/L2 index on the embedding field. -/
def create_index (c : Collection) : Collection :=
  if c.hasIndex then c else { c with hasIndex := true }

/-- The ingestion loop inside `setup_collection` (src/database_operations.py
lines 198-201): for each text in input order, compute
`processed_text = preprocess_text(text)`, compute
`embedding = generate_embeddings_openai(text, model)` — note: the RAW `text`,
not `processed_text` — and call `insert_texts(collection, processed_text,
embedding)`. An exception raised by an insert propagates (no handler), ending
the loop; the collection keeps the rows flushed so far. -/
def ingestLoop (pre : String → String) (api : String → String → ApiResult)
    (model_name : String) (c : Collection) (texts : List String) :
    Collection × Option StoreErr :=
  match texts with
  | [] => (c, none)
  | t :: rest =>
      let processed_text := pre t
      let embedding := generate_embeddings_openai api t model_name
      match insert_texts c processed_text embedding with
      | Except.error e => (c, some e)
      | Except.ok c2 => ingestLoop pre api model_name c2 rest

/-- Transcription of `setup_collection` (src/database_operations.py lines
193-203): create (or reuse) the collection, run the ingestion loop over the
seed texts, and — only if no exception escaped the loop — build the index
once. The seed corpus `initial_texts` comes from `texts.py`, which is not
part of the given sources, so the texts are a parameter. The second component
records the exception that aborted initialization, if any. -/
def setup_collection (pre : String → String) (api : String → String → ApiResult)
    (model_name : String) (s : StoreState) (texts : List String) :
    StoreState × Option StoreErr :=
  let p := create_collection s model_name
  let q := ingestLoop pre api model_name p.2 texts
  match q.2 with
  | some e => ({ p.1 with coll := some q.1 }, some e)
  | none => ({ p.1 with coll := some (create_index q.1) }, none)

/-- Transcription of `remove_existing_database` (src/database_operations.py
lines 21-49): whatever the prior state, drop every collection and the
database if it exists, then create a fresh empty database. -/
def remove_existing_database (_s : StoreState) : StoreState :=
  { dbExists := true, coll := none }

/-- Transcription of `reset_database` (src/database_operations.py lines
230-238): `remove_existing_database()` followed by `setup_collection()`. -/
def reset_database (pre : String → String) (api : String → String → ApiResult)
    (model_name : String) (s : StoreState) (texts : List String) :
    StoreState × Option StoreErr :=
  setup_collection pre api model_name (remove_existing_database s) texts

/-- Squared L2 distance between two embeddings, the metric configured in
`create_index`/`search_similar_texts` (`metric_type: "L2"`; Milvus reports
squared Euclidean distance for L2). -/
def sqDist (u v : Embedding) : ℚ :=
  (List.zipWith (fun a b => (a - b) * (a - b)) u v).sum

/-- One entry of the structured result list built by `search_similar_texts`
(src/database_operations.py lines 180-188): the row id, its text field and
its distance to the query. -/
structure SearchResult where
  ID : Nat
  Text : String
  Distance : ℚ
deriving DecidableEq

/-- Ranking preorder of the store's search: ascending distance, ties broken
by smaller internal id. -/
def hitLE (r1 r2 : SearchResult) : Prop :=
  r1.Distance < r2.Distance ∨ (r1.Distance = r2.Distance ∧ r1.ID ≤ r2.ID)

instance : DecidableRel hitLE := fun r1 r2 => by
  unfold hitLE; infer_instance

instance : IsTotal SearchResult hitLE where
  total r1 r2 := by
    unfold hitLE
    rcases lt_trichotomy r1.Distance r2.Distance with h | h | h
    · exact Or.inl (Or.inl h)
    · rcases Nat.le_total r1.ID r2.ID with h2 | h2
      · exact Or.inl (Or.inr ⟨h, h2⟩)
      · exact Or.inr (Or.inr ⟨h.symm, h2⟩)
    · exact Or.inr (Or.inl h)

instance : IsTrans SearchResult hitLE where
  trans r1 r2 r3 h12 h23 := by
    unfold hitLE at *
    rcases h12 with h12 | ⟨e12, i12⟩
    · rcases h23 with h23 | ⟨e23, _⟩
      · exact Or.inl (h12.trans h23)
      · exact Or.inl (e23 ▸ h12)
    · rcases h23 with h23 | ⟨e23, i23⟩
      · exact Or.inl (e12 ▸ h23)
      · exact Or.inr ⟨e12.trans e23, i12.trans i23⟩

/-- Modelled from the spec: the Milvus server-side vector search consumed by
`search_similar_texts` (§4.2 `search`, §6 store API): it returns up to
`limit` hits over the stored rows, ordered by ascending L2 distance to the
query, ties broken by smaller internal id, and returns fewer than `limit`
hits only when the collection holds fewer rows. -/
def storeSearch (c : Collection) (q : Embedding) (limit : Nat) :
    List SearchResult :=
  (List.insertionSort hitLE
    (c.docs.map fun d => { ID := d.id, Text := d.text, Distance := sqDist q d.embedding })).take limit

/-- Transcription of `search_similar_texts` (src/database_operations.py lines
159-191): load the collection, run the search with `limit = top_k`, and
re-package the hits as `{ID, Text, Distance}` records. The function installs
no exception handler, so a store connection failure raises
(`storeUnavailable`), and a `None` query embedding — which the webhook can
pass, see `webhookQueryPath` — is rejected by the Milvus client when it
prepares `[query_embedding]` (`invalidData`); both exceptions propagate to
the caller. `storeUp` says whether the store connection is working. -/
def search_similar_texts (storeUp : Bool) (c : Collection)
    (query_embedding : Option Embedding) (top_k : Nat) :
    Except StoreErr (Collection × List SearchResult) :=
  if storeUp then
    match query_embedding with
    | none => Except.error StoreErr.invalidData
    | some q => Except.ok ({ c with loaded := true }, storeSearch c q top_k)
  else
    Except.error StoreErr.storeUnavailable

/-- Python's `str.lower()`, modelled on the string's character list (ASCII
case mapping via `Char.toLower`; the Thai characters the program works with
have no case and are unchanged by either). -/
def pyLower (s : String) : String :=
  String.mk (s.data.map Char.toLower)

/-- Python's `str.strip()` with no argument, modelled on the string's
character list: drop leading and trailing whitespace. -/
def pyStrip (s : String) : String :=
  String.mk (((s.data.dropWhile Char.isWhitespace).reverse.dropWhile
    Char.isWhitespace).reverse)

/-- Transcription of line 91 of src/main.py: the webhook reads the user's
message and applies `.strip().lower()` before anything else. -/
def webhook_user_input (raw : String) : String :=
  pyLower (pyStrip raw)

/-- The retrieval part of the webhook handler (src/main.py lines 91-96): take
the stripped/lowercased user message, embed it with
`generate_embeddings_openai`, and call `search_similar_texts(collection,
embedding, 4)`. There is no exception handler in `webhook`, so any exception
raised by the search propagates (to Flask). The result models lines 94-96:
either the structured hit list, or the exception that escaped. -/
def webhookQueryPath (storeUp : Bool) (api : String → String → ApiResult)
    (model_name : String) (c : Collection) (raw : String) :
    Except StoreErr (Collection × List SearchResult) :=
  let user_input := webhook_user_input raw
  let embedding := generate_embeddings_openai api user_input model_name
  search_similar_texts storeUp c embedding 4

/-- Embedding field of a parsed response (`[]` when the call failed); with a
successful `ApiResult.ok v` response this is `v`. -/
def vecOf : ApiResult → Embedding
  | ApiResult.ok v => v
  | ApiResult.httpError => []
  | ApiResult.malformed => []

/-- The embedding call for text `t` succeeds and yields a vector of length
`d` (the "no embedding failures" assumption of the spec). -/
def embedOk (api : String → String → ApiResult) (model_name : String)
    (d : Nat) (t : String) : Prop :=
  ∃ v, api t model_name = ApiResult.ok v ∧ v.length = d

/-- The rows the ingestion loop of `setup_collection` produces for `texts`,
starting from auto id `n0`: the stored text is the PREPROCESSED form `pre t`,
while the stored embedding is the embedding of the RAW text `t` (line 200 of
src/database_operations.py embeds `text`, not `processed_text`). -/
def ingestDocs (pre : String → String) (api : String → String → ApiResult)
    (model_name : String) (n0 : Nat) : List String → List Doc
  | [] => []
  | t :: rest =>
      { id := n0, text := pre t, embedding := vecOf (api t model_name) } ::
        ingestDocs pre api model_name (n0 + 1) rest

theorem ingestDocs_length (pre : String → String)
    (api : String → String → ApiResult) (model_name : String) :
    ∀ (texts : List String) (n0 : Nat),
      (ingestDocs pre api model_name n0 texts).length = texts.length := by
  intro texts
  induction texts with
  | nil => intro n0; rfl
  | cons t rest ih => intro n0; simp [ingestDocs, ih]

/-- Helper: running the ingestion loop over `l1 ++ l2` where every item of
`l1` embeds successfully at the collection's dimension first appends the
`l1` rows, then continues with `l2`. -/
theorem ingestLoop_split (pre : String → String)
    (api : String → String → ApiResult) (model_name : String) :
    ∀ (l1 : List String) (c : Collection),
      (∀ t ∈ l1, embedOk api model_name c.dim t) →
      ∀ l2 : List String,
        ingestLoop pre api model_name c (l1 ++ l2) =
          ingestLoop pre api model_name
            { c with
              docs := c.docs ++ ingestDocs pre api model_name c.nextId l1,
              nextId := c.nextId + l1.length } l2 := by
  intro l1
  induction l1 with
  | nil =>
      intro c _ l2
      simp [ingestDocs]
  | cons t l1' ih =>
      intro c h l2
      obtain ⟨v, hv, hlen⟩ := h t (List.mem_cons_self t l1')
      have hgen : generate_embeddings_openai api t model_name = some v := by
        simp [generate_embeddings_openai, hv]
      have hins : insert_texts c (pre t) (some v) = Except.ok
          { c with
            docs := c.docs ++ [{ id := c.nextId, text := pre t, embedding := v }],
            nextId := c.nextId + 1 } := by
        simp [insert_texts, hlen]
      have hrest : ∀ t' ∈ l1', embedOk api model_name c.dim t' :=
        fun t' ht' => h t' (List.mem_cons_of_mem _ ht')
      have ih2 := ih
        { c with
          docs := c.docs ++ [{ id := c.nextId, text := pre t, embedding := v }],
          nextId := c.nextId + 1 } hrest l2
      have hstep : ingestLoop pre api model_name c ((t :: l1') ++ l2) =
          ingestLoop pre api model_name
            { c with
              docs := c.docs ++ [{ id := c.nextId, text := pre t, embedding := v }],
              nextId := c.nextId + 1 } (l1' ++ l2) := by
        simp only [List.cons_append, ingestLoop, hgen, hins, List.append_eq]
      rw [hstep, ih2]
      congr 1
      simp only [Collection.mk.injEq, ingestDocs, vecOf, hv, List.append_assoc,
        List.singleton_append, List.length_cons, true_and, and_true]
      omega

/-- Helper: the ingestion loop over a list of all-successful texts appends
exactly their rows and raises nothing. -/
theorem ingestLoop_all_ok (pre : String → String)
    (api : String → String → ApiResult) (model_name : String)
    (texts : List String) (c : Collection)
    (h : ∀ t ∈ texts, embedOk api model_name c.dim t) :
    ingestLoop pre api model_name c texts =
      ({ c with
          docs := c.docs ++ ingestDocs pre api model_name c.nextId texts,
          nextId := c.nextId + texts.length }, none) := by
  have := ingestLoop_split pre api model_name texts c h []
  rw [List.append_nil] at this
  rw [this]
  rfl

/-- Helper: `setup_collection` under the "no embedding failures" assumption —
reuse or create the collection, append one row per text in input order
(preprocessed text stored, raw text embedded), then build the index once. -/
theorem setup_collection_ok_eq (pre : String → String)
    (api : String → String → ApiResult) (model_name : String)
    (s s1 : StoreState) (c : Collection) (texts : List String)
    (hc : create_collection s model_name = (s1, c))
    (h : ∀ t ∈ texts, embedOk api model_name c.dim t) :
    setup_collection pre api model_name s texts =
      ({ s1 with coll := some (create_index
          { c with
            docs := c.docs ++ ingestDocs pre api model_name c.nextId texts,
            nextId := c.nextId + texts.length }) }, none) := by
  simp only [setup_collection, hc]
  rw [ingestLoop_all_ok pre api model_name texts c h]

/-! ## Theorems -/

/-- C10: `create_collection` maps exactly the model name
"text-embedding-3-large" to embedding dimension 3072; every other model name,
including unrecognized or misspelled ones, is silently assigned dimension
1536, with no error for an unknown model identifier. -/
theorem embeddingDim_large_else_small :
    embeddingDim "text-embedding-3-large" = 3072 ∧
    ∀ m : String, m ≠ "text-embedding-3-large" → embeddingDim m = 1536 := by
  refine ⟨rfl, ?_⟩
  intro m hm
  simp [embeddingDim, hm]

/-- Witness for C10 at the misspelled model name "text-embedding-3-Large". -/
theorem embeddingDim_large_else_small_witness :
    "text-embedding-3-Large" ≠ "text-embedding-3-large" ∧
    embeddingDim "text-embedding-3-Large" = 1536 :=
  ⟨by decide, embeddingDim_large_else_small.2 "text-embedding-3-Large" (by decide)⟩

/-- C4: `create_collection` is idempotent — when a collection already exists,
any further call (with any requested model/dimension) returns the same store
state and a handle to the very same collection, without modifying or
re-validating the schema; in particular a second call after a first one is a
no-op on the state. -/
theorem create_collection_idempotent :
    (∀ (s : StoreState) (c : Collection) (m : String),
        s.coll = some c → create_collection s m = (s, c)) ∧
    (∀ (s : StoreState) (m1 m2 : String),
        create_collection (create_collection s m1).1 m2 =
          ((create_collection s m1).1, (create_collection s m1).2)) := by
  constructor
  · intro s c m h
    simp [create_collection, h]
  · intro s m1 m2
    cases h : s.coll with
    | some c => simp [create_collection, h]
    | none => simp [create_collection, h]

/-- Witness for C4: a store whose existing collection has dimension 7 is
returned unchanged even when the requested model implies dimension 3072. -/
theorem create_collection_idempotent_witness :
    (StoreState.mk true (some (Collection.mk 7 0 [] false false))).coll =
      some (Collection.mk 7 0 [] false false) ∧
    create_collection (StoreState.mk true (some (Collection.mk 7 0 [] false false)))
        "text-embedding-3-large" =
      (StoreState.mk true (some (Collection.mk 7 0 [] false false)),
        Collection.mk 7 0 [] false false) :=
  ⟨rfl, create_collection_idempotent.1 _ _ "text-embedding-3-large" rfl⟩

/-- C3: calling `insert` with an embedding whose length differs from the
collection's configured dimension fails with `SchemaMismatchError`; the error
result carries no new collection state, so the document is not added and the
collection's contents are unchanged. -/
theorem insert_texts_dimension_mismatch (c : Collection) (t : String)
    (v : Embedding) (h : v.length ≠ c.dim) :
    insert_texts c t (some v) = Except.error StoreErr.schemaMismatch := by
  simp [insert_texts, h]

/-- Witness for C3: a 2-element vector against a dimension-3 schema. -/
theorem insert_texts_dimension_mismatch_witness :
    [(1 : ℚ), 2].length ≠ (Collection.mk 3 0 [] false false).dim ∧
    insert_texts (Collection.mk 3 0 [] false false) "t" (some [(1 : ℚ), 2]) =
      Except.error StoreErr.schemaMismatch :=
  ⟨by decide, insert_texts_dimension_mismatch _ "t" _ (by decide)⟩

/-- Counterexample for C6: the claim that `embed(text, M)` returns a vector
of length exactly D(M) or fails is false on the code — the response's
embedding field is returned verbatim with no length validation, so a
(malformed but parseable) response carrying a 1-element vector for
"text-embedding-3-large" (D = 3072) is returned as a success. -/
theorem generate_embeddings_no_length_check :
    generate_embeddings_openai (fun _ _ => ApiResult.ok [(0 : ℚ)]) "hi"
        "text-embedding-3-large" = some [(0 : ℚ)] ∧
    [(0 : ℚ)].length ≠ embeddingDim "text-embedding-3-large" :=
  ⟨rfl, by decide⟩

/-- C6 (amended): `generate_embeddings_openai` returns the response's
embedding field verbatim — of whatever length the service supplied — on a
parseable response, and returns None (not a raised error) on network/HTTP
failure or a malformed/field-missing response. -/
theorem generate_embeddings_cases (api : String → String → ApiResult)
    (t m : String) :
    (api t m = ApiResult.httpError ∨ api t m = ApiResult.malformed →
      generate_embeddings_openai api t m = none) ∧
    (∀ v, api t m = ApiResult.ok v → generate_embeddings_openai api t m = some v) := by
  constructor
  · intro h
    rcases h with h | h <;> simp [generate_embeddings_openai, h]
  · intro v h
    simp [generate_embeddings_openai, h]

/-- Witness for C6 (amended): an HTTP failure yields None. -/
theorem generate_embeddings_cases_witness :
    generate_embeddings_openai (fun _ _ => ApiResult.httpError) "q" "m" = none :=
  (generate_embeddings_cases (fun _ _ => ApiResult.httpError) "q" "m").1 (Or.inl rfl)

/-- Counterexample for C9: the claim that the query string is embedded
exactly as typed is false — line 91 of src/main.py applies
`.strip().lower()` to the message before it is embedded, so the typed query
"Hello " is embedded as "hello". -/
theorem webhook_user_input_not_identity :
    webhook_user_input "Hello " ≠ "Hello " := by decide

/-- C9 (amended): the document preprocessing (`preprocess_text`) is not
applied to the query, but the query is not embedded exactly as typed either:
the only transformation before embedding is whitespace-strip plus lowercase,
and the whole query path depends on the raw message only through that
stripped/lowercased form. -/
theorem webhook_query_strip_lower (storeUp : Bool)
    (api : String → String → ApiResult) (model_name : String) (c : Collection)
    (r1 r2 : String) (h : webhook_user_input r1 = webhook_user_input r2) :
    webhook_user_input r1 = pyLower (pyStrip r1) ∧
    webhookQueryPath storeUp api model_name c r1 =
      webhookQueryPath storeUp api model_name c r2 := by
  refine ⟨rfl, ?_⟩
  unfold webhookQueryPath
  rw [h]

/-- Witness for C9 (amended): " Hi" and "hI " reach the same query result. -/
theorem webhook_query_strip_lower_witness :
    webhook_user_input " Hi" = pyLower (pyStrip " Hi") ∧
    webhookQueryPath true (fun _ _ => ApiResult.httpError) "m"
        (Collection.mk 1536 0 [] false false) " Hi" =
      webhookQueryPath true (fun _ _ => ApiResult.httpError) "m"
        (Collection.mk 1536 0 [] false false) "hI " :=
  webhook_query_strip_lower true (fun _ _ => ApiResult.httpError) "m"
    (Collection.mk 1536 0 [] false false) " Hi" "hI " (by decide)

/-- Counterexample for C1: the claim that an embedding failure during a live
query is recovered by returning an empty result sequence is false — when the
embedding HTTP call fails, `generate_embeddings_openai` returns None, the
webhook passes that None straight to the search, and the resulting exception
propagates out of the query path (an error, not an empty ok result). -/
theorem webhook_embedding_failure_raises :
    webhookQueryPath true (fun _ _ => ApiResult.httpError) "text-embedding-3-large"
        (Collection.mk 3072 0 [] true false) "hi" =
      Except.error StoreErr.invalidData := rfl

/-- C1 (amended): a failure of the embedding call or of the similarity search
during a live query is NOT recovered anywhere in the query path — the path
ends in a propagated exception (store-unavailable, or the store rejecting the
None embedding), never in an empty result sequence. -/
theorem webhook_failure_propagates (storeUp : Bool)
    (api : String → String → ApiResult) (model_name : String) (c : Collection)
    (raw : String)
    (h : storeUp = false ∨
      api (webhook_user_input raw) model_name = ApiResult.httpError ∨
      api (webhook_user_input raw) model_name = ApiResult.malformed) :
    webhookQueryPath storeUp api model_name c raw =
        Except.error StoreErr.storeUnavailable ∨
    webhookQueryPath storeUp api model_name c raw =
        Except.error StoreErr.invalidData := by
  cases storeUp with
  | false =>
      left
      simp [webhookQueryPath, search_similar_texts]
  | true =>
      rcases h with h | h | h
      · exact absurd h (by simp)
      · right
        simp [webhookQueryPath, generate_embeddings_openai, h, search_similar_texts]
      · right
        simp [webhookQueryPath, generate_embeddings_openai, h, search_similar_texts]

/-- Witness for C1 (amended): a malformed embedding response with the store
up ends the query path in a propagated error. -/
theorem webhook_failure_propagates_witness :
    webhookQueryPath true (fun _ _ => ApiResult.malformed) "m"
        (Collection.mk 1536 0 [] true true) "q" =
        Except.error StoreErr.storeUnavailable ∨
    webhookQueryPath true (fun _ _ => ApiResult.malformed) "m"
        (Collection.mk 1536 0 [] true true) "q" =
        Except.error StoreErr.invalidData :=
  webhook_failure_propagates true (fun _ _ => ApiResult.malformed) "m"
    (Collection.mk 1536 0 [] true true) "q" (Or.inr (Or.inr rfl))

/-- Counterexample for C2: the claim that every stored embedding is the
embedding of the stored (preprocessed) text is false — line 200 of
src/database_operations.py embeds the RAW text, not `processed_text`. With a
preprocessor appending "!" and an embedding service returning a constant
vector of the text's length, the stored row for "ab" has text "ab!" and the
embedding of "ab" (all entries 2), which differs from the embedding of the
stored preprocessed form "ab!" (all entries 3). -/
theorem setup_collection_embeds_raw_counterexample :
    ((setup_collection (fun t => t ++ "!")
        (fun t _ => ApiResult.ok (List.replicate 1536 ((t.length : ℚ)))) "m"
        (StoreState.mk true none) ["ab"]).1.coll.map
      (fun c => c.docs.map (fun d => (d.text, d.embedding)))) =
      some [("ab!", List.replicate 1536 (2 : ℚ))] ∧
    generate_embeddings_openai
        (fun t _ => ApiResult.ok (List.replicate 1536 ((t.length : ℚ))))
        "ab!" "m" = some (List.replicate 1536 (3 : ℚ)) ∧
    List.replicate 1536 (2 : ℚ) ≠ List.replicate 1536 (3 : ℚ) := by
  have e2 : ("ab".length : ℚ) = 2 := by
    have h : "ab".length = 2 := by decide
    rw [h]; norm_num
  have e3 : ("ab!".length : ℚ) = 3 := by
    have h : "ab!".length = 3 := by decide
    rw [h]; norm_num
  have hstr : "ab" ++ "!" = "ab!" := by decide
  refine ⟨?_, ?_, ?_⟩
  · have hc : create_collection (StoreState.mk true none) "m" =
        (StoreState.mk true (some (Collection.mk 1536 0 [] false false)),
         Collection.mk 1536 0 [] false false) := rfl
    have h1 := setup_collection_ok_eq (fun t => t ++ "!")
      (fun t _ => ApiResult.ok (List.replicate 1536 ((t.length : ℚ)))) "m"
      (StoreState.mk true none)
      (StoreState.mk true (some (Collection.mk 1536 0 [] false false)))
      (Collection.mk 1536 0 [] false false) ["ab"] hc
      (by
        intro t ht
        simp only [List.mem_singleton] at ht
        subst ht
        exact ⟨List.replicate 1536 (("ab".length : ℚ)), rfl, by simp⟩)
    rw [h1]
    simp [create_index, ingestDocs, vecOf, hstr, e2]
  · simp [generate_embeddings_openai, e3]
  · intro h
    have := congrArg (fun l => l.head?) h
    simp [List.head?_replicate] at this

/-- C2 (amended): seed-corpus ingestion processes each text in input order by
preprocessing it, embedding the ORIGINAL RAW text (not the preprocessed
form), and inserting the preprocessed text with that raw-text embedding
(`ingestDocs`); the index is built once after all items — assuming every
embedding call succeeds at the collection's dimension. -/
theorem setup_collection_rows (pre : String → String)
    (api : String → String → ApiResult) (model_name : String)
    (s s1 : StoreState) (c : Collection) (texts : List String)
    (hc : create_collection s model_name = (s1, c))
    (h : ∀ t ∈ texts, embedOk api model_name c.dim t) :
    setup_collection pre api model_name s texts =
      ({ s1 with coll := some (create_index
          { c with
            docs := c.docs ++ ingestDocs pre api model_name c.nextId texts,
            nextId := c.nextId + texts.length }) }, none) :=
  setup_collection_ok_eq pre api model_name s s1 c texts hc h

/-- Witness for C2 (amended) on the seed text "ab" with a fresh store. -/
theorem setup_collection_rows_witness :
    setup_collection (fun t => t ++ "!")
        (fun t _ => ApiResult.ok (List.replicate 1536 ((t.length : ℚ)))) "m"
        (StoreState.mk true none) ["ab"] =
      ({ StoreState.mk true (some (Collection.mk 1536 0 [] false false)) with
          coll := some (create_index
            { Collection.mk 1536 0 [] false false with
              docs := (Collection.mk 1536 0 [] false false).docs ++
                ingestDocs (fun t => t ++ "!")
                  (fun t _ => ApiResult.ok (List.replicate 1536 ((t.length : ℚ))))
                  "m" (Collection.mk 1536 0 [] false false).nextId ["ab"],
              nextId := (Collection.mk 1536 0 [] false false).nextId +
                (["ab"] : List String).length }) }, none) :=
  setup_collection_rows (fun t => t ++ "!")
    (fun t _ => ApiResult.ok (List.replicate 1536 ((t.length : ℚ)))) "m"
    (StoreState.mk true none)
    (StoreState.mk true (some (Collection.mk 1536 0 [] false false)))
    (Collection.mk 1536 0 [] false false) ["ab"] (by decide)
    (by
      intro t ht
      simp only [List.mem_singleton] at ht
      subst ht
      exact ⟨List.replicate 1536 ((("ab").length : ℚ)), rfl, by simp⟩)

/-- C5: during seed ingestion an embedding failure on any item is fatal —
`generate_embeddings_openai` returns None for that item, the store's insert
rejects the None vector, and the raised exception aborts `setup_collection`:
the failing item is not added, no later item is attempted, the index is not
built, and initialization ends in an error instead of returning a usable
collection. -/
theorem setup_collection_aborts_on_embed_failure (pre : String → String)
    (api : String → String → ApiResult) (model_name : String)
    (s s1 : StoreState) (c : Collection) (l1 : List String) (bad : String)
    (l2 : List String)
    (hc : create_collection s model_name = (s1, c))
    (hgood : ∀ t ∈ l1, embedOk api model_name c.dim t)
    (hbad : api bad model_name = ApiResult.httpError ∨
      api bad model_name = ApiResult.malformed) :
    setup_collection pre api model_name s (l1 ++ bad :: l2) =
      ({ s1 with coll := some (
          { c with
            docs := c.docs ++ ingestDocs pre api model_name c.nextId l1,
            nextId := c.nextId + l1.length }) }, some StoreErr.invalidData) := by
  have hgen : generate_embeddings_openai api bad model_name = none := by
    rcases hbad with h | h <;> simp [generate_embeddings_openai, h]
  simp only [setup_collection, hc]
  rw [ingestLoop_split pre api model_name l1 c hgood (bad :: l2)]
  simp only [ingestLoop, hgen, insert_texts]

/-- Witness for C5: item "a" embeds fine, item "b" hits an HTTP failure, item
"zz" is never attempted. -/
theorem setup_collection_aborts_on_embed_failure_witness :
    setup_collection (fun t => t)
        (fun t _ => if t = "a" then ApiResult.ok (List.replicate 1536 (0 : ℚ))
          else ApiResult.httpError) "m"
        (StoreState.mk true none) (["a"] ++ "b" :: ["zz"]) =
      ({ StoreState.mk true (some (Collection.mk 1536 0 [] false false)) with
          coll := some (
            { Collection.mk 1536 0 [] false false with
              docs := (Collection.mk 1536 0 [] false false).docs ++
                ingestDocs (fun t => t)
                  (fun t _ => if t = "a" then ApiResult.ok (List.replicate 1536 (0 : ℚ))
                    else ApiResult.httpError) "m"
                  (Collection.mk 1536 0 [] false false).nextId ["a"],
              nextId := (Collection.mk 1536 0 [] false false).nextId +
                (["a"] : List String).length }) }, some StoreErr.invalidData) :=
  setup_collection_aborts_on_embed_failure (fun t => t)
    (fun t _ => if t = "a" then ApiResult.ok (List.replicate 1536 (0 : ℚ))
      else ApiResult.httpError) "m"
    (StoreState.mk true none)
    (StoreState.mk true (some (Collection.mk 1536 0 [] false false)))
    (Collection.mk 1536 0 [] false false) ["a"] "b" ["zz"] (by decide)
    (by
      intro t ht
      simp only [List.mem_singleton] at ht
      subst ht
      exact ⟨List.replicate 1536 (0 : ℚ), by simp, by simp⟩)
    (Or.inl (by simp))

/-- C8: `reset` followed by seed ingestion over texts `T` yields a collection
holding exactly `len(T)` documents, regardless of the prior store state,
assuming every embedding call succeeds at the configured model's dimension. -/
theorem reset_then_ingest_count (pre : String → String)
    (api : String → String → ApiResult) (model_name : String)
    (s : StoreState) (texts : List String)
    (h : ∀ t ∈ texts, embedOk api model_name (embeddingDim model_name) t) :
    (reset_database pre api model_name s texts).2 = none ∧
    ((reset_database pre api model_name s texts).1.coll.map
      (fun c => c.docs.length)) = some texts.length := by
  have hc : create_collection (remove_existing_database s) model_name =
      (StoreState.mk true
        (some (Collection.mk (embeddingDim model_name) 0 [] false false)),
       Collection.mk (embeddingDim model_name) 0 [] false false) := rfl
  have hok := setup_collection_ok_eq pre api model_name
    (remove_existing_database s)
    (StoreState.mk true
      (some (Collection.mk (embeddingDim model_name) 0 [] false false)))
    (Collection.mk (embeddingDim model_name) 0 [] false false) texts hc h
  unfold reset_database
  rw [hok]
  refine ⟨rfl, ?_⟩
  simp [create_index, ingestDocs_length]

/-- Witness for C8: a dirty prior state (foreign collection of dimension 7)
is reset and re-seeded with one text, leaving exactly one document. -/
theorem reset_then_ingest_count_witness :
    (reset_database (fun t => t)
        (fun _ _ => ApiResult.ok (List.replicate 1536 (0 : ℚ))) "m"
        (StoreState.mk true (some (Collection.mk 7 5 [Doc.mk 9 "x" [1]] true true)))
        ["a"]).2 = none ∧
    ((reset_database (fun t => t)
        (fun _ _ => ApiResult.ok (List.replicate 1536 (0 : ℚ))) "m"
        (StoreState.mk true (some (Collection.mk 7 5 [Doc.mk 9 "x" [1]] true true)))
        ["a"]).1.coll.map (fun c => c.docs.length)) =
      some (["a"] : List String).length :=
  reset_then_ingest_count (fun t => t)
    (fun _ _ => ApiResult.ok (List.replicate 1536 (0 : ℚ))) "m"
    (StoreState.mk true (some (Collection.mk 7 5 [Doc.mk 9 "x" [1]] true true)))
    ["a"]
    (by
      intro t ht
      simp only [List.mem_singleton] at ht
      subst ht
      exact ⟨List.replicate 1536 (0 : ℚ), rfl, by decide⟩)

/-- Strict ranking order of two search results: strictly smaller distance,
or equal distance and strictly smaller internal id (the tie-break). -/
def strictHit (r1 r2 : SearchResult) : Prop :=
  r1.Distance < r2.Distance ∨ (r1.Distance = r2.Distance ∧ r1.ID < r2.ID)

theorem strictHit_asymm (r1 r2 : SearchResult) :
    strictHit r1 r2 → strictHit r2 r1 → False := by
  intro h1 h2
  rcases h1 with h1 | ⟨e1, i1⟩ <;> rcases h2 with h2 | ⟨e2, i2⟩
  · exact lt_irrefl _ (h1.trans h2)
  · rw [e2] at h1
    exact lt_irrefl _ h1
  · rw [e1] at h2
    exact lt_irrefl _ h2
  · exact lt_irrefl _ (i1.trans i2)

/-- C7: `search(queryEmbedding, topK)` (with the store up and a real query
vector) returns the ranked hit list; that list has length `min topK n` where
`n` is the number of stored documents — so never more than `topK`, and fewer
only when the collection holds fewer; it is ordered by ascending distance;
and, when the stored ids are distinct, position order coincides exactly with
the (distance, id)-lexicographic ranking order (ties broken by smaller id). -/
theorem search_topk_ranked (c : Collection) (q : Embedding) (k : Nat)
    (hids : (c.docs.map Doc.id).Nodup) :
    search_similar_texts true c (some q) k =
      Except.ok ({ c with loaded := true }, storeSearch c q k) ∧
    (storeSearch c q k).length = min k c.docs.length ∧
    (∀ i j : Fin (storeSearch c q k).length, i < j →
      ((storeSearch c q k).get i).Distance ≤ ((storeSearch c q k).get j).Distance) ∧
    (∀ i j : Fin (storeSearch c q k).length,
      i < j ↔ strictHit ((storeSearch c q k).get i) ((storeSearch c q k).get j)) := by
  have hs0 : List.Pairwise hitLE (List.insertionSort hitLE
      (c.docs.map fun d =>
        ({ ID := d.id, Text := d.text, Distance := sqDist q d.embedding } : SearchResult))) := by
    have h := List.sorted_insertionSort hitLE
      (c.docs.map fun d =>
        ({ ID := d.id, Text := d.text, Distance := sqDist q d.embedding } : SearchResult))
    exact h
  have hsorted : List.Sorted hitLE (storeSearch c q k) :=
    hs0.sublist (List.take_sublist _ _)
  have hidsres : ((storeSearch c q k).map SearchResult.ID).Nodup := by
    have hperm := (List.perm_insertionSort hitLE
      (c.docs.map fun d =>
        { ID := d.id, Text := d.text, Distance := sqDist q d.embedding })).map
      SearchResult.ID
    have hall : ((List.insertionSort hitLE
        (c.docs.map fun d =>
          { ID := d.id, Text := d.text, Distance := sqDist q d.embedding })).map
        SearchResult.ID).Nodup := by
      rw [hperm.nodup_iff, List.map_map]
      exact hids
    have hsub : List.Sublist ((storeSearch c q k).map SearchResult.ID)
        ((List.insertionSort hitLE
          (c.docs.map fun d =>
            { ID := d.id, Text := d.text, Distance := sqDist q d.embedding })).map
          SearchResult.ID) := by
      rw [storeSearch, List.map_take]
      exact List.take_sublist _ _
    exact hall.sublist hsub
  have hne : (storeSearch c q k).Pairwise
      (fun a b => SearchResult.ID a ≠ SearchResult.ID b) := by
    have h' : ((storeSearch c q k).map SearchResult.ID).Pairwise
        (fun a b => a ≠ b) := hidsres
    rw [List.pairwise_map] at h'
    exact h'
  have hcomb : (storeSearch c q k).Pairwise
      (fun a b => hitLE a b ∧ SearchResult.ID a ≠ SearchResult.ID b) :=
    List.pairwise_and_iff.mpr ⟨hsorted, hne⟩
  have hfwd : ∀ i j : Fin (storeSearch c q k).length, i < j →
      strictHit ((storeSearch c q k).get i) ((storeSearch c q k).get j) := by
    intro i j hij
    have h1 := (show List.Sorted _ (storeSearch c q k) from hcomb).rel_get_of_lt hij
    obtain ⟨hle, hneid⟩ := h1
    rcases hle with hlt | ⟨heq, hle2⟩
    · exact Or.inl hlt
    · exact Or.inr ⟨heq, lt_of_le_of_ne hle2 hneid⟩
  refine ⟨rfl, ?_, ?_, ?_⟩
  · simp [storeSearch]
  · intro i j hij
    rcases hfwd i j hij with hlt | ⟨heq, _⟩
    · exact le_of_lt hlt
    · exact le_of_eq heq
  · intro i j
    constructor
    · exact hfwd i j
    · intro h
      rcases lt_trichotomy i j with hij | hij | hij
      · exact hij
      · exfalso
        rw [hij] at h
        exact strictHit_asymm _ _ h h
      · exact absurd (hfwd j i hij) (fun h2 => strictHit_asymm _ _ h h2)

/-- Concrete two-document collection used to witness the ranking theorem. -/
def searchDemoCollection : Collection :=
  Collection.mk 1 0 [Doc.mk 0 "a" [0], Doc.mk 1 "b" [3]] true false

/-- Witness for C7: two stored documents, query `[1]`, `topK = 5` — both
documents are returned, ranked by distance. -/
theorem search_topk_ranked_witness :
    search_similar_texts true searchDemoCollection (some [1]) 5 =
      Except.ok ({ searchDemoCollection with loaded := true },
        storeSearch searchDemoCollection [1] 5) ∧
    (storeSearch searchDemoCollection [1] 5).length =
      min 5 searchDemoCollection.docs.length ∧
    (∀ i j : Fin (storeSearch searchDemoCollection [1] 5).length, i < j →
      ((storeSearch searchDemoCollection [1] 5).get i).Distance ≤
      ((storeSearch searchDemoCollection [1] 5).get j).Distance) ∧
    (∀ i j : Fin (storeSearch searchDemoCollection [1] 5).length,
      i < j ↔ strictHit ((storeSearch searchDemoCollection [1] 5).get i)
        ((storeSearch searchDemoCollection [1] 5).get j)) :=
  search_topk_ranked searchDemoCollection [1] 5 (by decide)

end RagDemo
